import Mathlib

/-!
Shallow embedding of `src/oprf.rs` of the `opaque-ke` repository: the three
steps of the multiplicative-blinding DH-OPRF (`generate_oprf1`, `generate_oprf2`,
`generate_oprf3`), generic over the crate's `Group` trait, together with the
spec-level wire operation `evaluate` and the reference function `directPRF`.

Bytes are modelled as `List Nat`; machine byte values stay below 256 by
construction of the modelled hash. The `Group` trait, the error enum and the
hash primitives live outside `src/`, so they are modelled abstractly (structure
fields / parameters), faithful to their use sites in `oprf.rs` and to the spec.
-/

set_option maxHeartbeats 1000000

namespace Oprf

/-- Modelled from the spec: the crate's error enum `InternalPakeError`
(declared in `errors.rs`, which is not under `src/`); the spec's §7 error
taxonomy lists `InvalidScalarError`, `InvalidPointError` and a randomness
failure. -/
inductive InternalPakeError where
  | InvalidPointError
  | InvalidScalarError
  | RandomnessFailure
deriving DecidableEq, Repr

/-- Modelled from the spec: the algebraic `Group` contract (trait `Group` in
`group.rs`, which is not under `src/`), restricted to the capabilities
`oprf.rs` uses: scalar multiplication `Element × Scalar → Element`, scalar
field multiplication and unit, scalar inversion, uniform scalar sampling from
an injected RNG state, `hash_to_curve` from a byte string, the canonical
element encoding `to_arr`, the canonical (fallible) element decoding
`from_element_slice`, and the `UniformBytesLen` length parameter that
`hash_to_curve` expects. `E` is the element type, `S` the scalar type, `R` the
RNG state type. -/
structure OprfGroup (E S R : Type) where
  smul : E → S → E
  mulS : S → S → S
  oneS : S
  scalar_invert : S → S
  random_scalar : R → S × R
  hash_to_curve : List Nat → E
  to_arr : E → List Nat
  from_element_slice : List Nat → Option E
  UniformBytesLen : Nat

/-- Modelled from the spec: the lawfulness of the external group
implementation, which the spec's §1/§3 assume correct (scalar multiplication
is an action of the commutative scalar field, with the field's unit acting
trivially). These laws are hypotheses of the algebraic claims, discharged on a
concrete instance in the witnesses. -/
@[reducible] def OprfGroup.Lawful {E S R : Type} (G : OprfGroup E S R) : Prop :=
  (∀ p a b, G.smul (G.smul p a) b = G.smul p (G.mulS a b)) ∧
  (∀ a b, G.mulS a b = G.mulS b a) ∧
  (∀ a b c, G.mulS (G.mulS a b) c = G.mulS a (G.mulS b c)) ∧
  (∀ p, G.smul p G.oneS = p)

/-- Modelled from the spec: a scalar is a valid (invertible) blinding factor
when `scalar_invert` really inverts it in the scalar field. -/
@[reducible] def OprfGroup.Invertible {E S R : Type} (G : OprfGroup E S R) (r : S) : Prop :=
  G.mulS r (G.scalar_invert r) = G.oneS

/-- Modelled from the spec: the fixed, unsalted HKDF-extract step instantiated
with SHA-256 (`Hkdf::<sha2::Sha256>::extract`, from the external `hkdf` and
`sha2` crates, not part of this repository). The properties the spec relies on
are that it is a deterministic function of `(salt, ikm)` with a fixed 32-byte
output; it is modelled as a concrete deterministic function with exactly those
properties. -/
def hkdfExtractSha256 (salt : Option (List Nat)) (ikm : List Nat) : List Nat :=
  let s := (salt.getD []).foldl (fun a b => (a * 31 + b) % 65536) 7
  let h := ikm.foldl (fun a b => (a * 33 + b) % 65536) s
  (List.range 32).map (fun i => (h + 131 * i) % 256)

/-- Modelled from the Rust `GenericArray::from_slice` conversion used in
`generate_oprf1`: it succeeds exactly when the slice length equals the
expected fixed length, and panics otherwise (the panic branch is `none`). -/
def genericArrayFromSlice (n : Nat) (l : List Nat) : Option (List Nat) :=
  if l.length = n then some l else none

/-- The `OprfClientBytes` struct of `oprf.rs`: the blinded element `alpha`
together with the secret `blinding_factor`. -/
structure OprfClientBytes (E S : Type) where
  alpha : E
  blinding_factor : S

/-- `generate_oprf1` of `oprf.rs`: HKDF-extract over `(salt = pepper,
ikm = input)` with the generic digest `D` (modelled as the function parameter
`hkdfD`), sample the blinding factor from the RNG, map the extracted bytes
into the group with `hash_to_curve` (through `GenericArray::from_slice`, whose
panic branch is `none`), multiply by the blinding factor, and return both.
The declared Rust result type is `Result<OprfClientBytes<G>,
InternalPakeError>`; the body only ever builds `Ok`. -/
def generate_oprf1 {E S R : Type} (G : OprfGroup E S R)
    (hkdfD : Option (List Nat) → List Nat → List Nat)
    (input : List Nat) (pepper : Option (List Nat)) (blinding_factor_rng : R) :
    Option (Except InternalPakeError (OprfClientBytes E S × R)) :=
  let hashed_input := hkdfD pepper input
  let br := G.random_scalar blinding_factor_rng
  match genericArrayFromSlice G.UniformBytesLen hashed_input with
  | none => none
  | some bytes =>
      some (Except.ok
        ({ alpha := G.smul (G.hash_to_curve bytes) br.1, blinding_factor := br.1 }, br.2))

/-- `generate_oprf2` of `oprf.rs`: `Ok(point * oprf_key)`. -/
def generate_oprf2 {E S R : Type} (G : OprfGroup E S R) (point : E) (oprf_key : S) :
    Except InternalPakeError E :=
  Except.ok (G.smul point oprf_key)

/-- `generate_oprf3` of `oprf.rs`: unblind `point` by multiplying with
`scalar_invert(blinding_factor)`, concatenate the canonical encoding of the
unblinded point with the raw input, and HKDF-extract (SHA-256, no salt) over
the concatenation. The body unconditionally returns `Ok`. -/
def generate_oprf3 {E S R : Type} (G : OprfGroup E S R)
    (input : List Nat) (point : E) (blinding_factor : S) :
    Except InternalPakeError (List Nat) :=
  let unblinded := G.smul point (G.scalar_invert blinding_factor)
  let ikm := G.to_arr unblinded ++ input
  Except.ok (hkdfExtractSha256 none ikm)

/-- Modelled from the spec: the wire-level server operation
`evaluate(alpha_wire, oprf_key)` of §6: decode the received bytes with the
group's `from_element_slice`, reject with `InvalidPointError` when they do not
decode to a valid group element, otherwise run `generate_oprf2` and re-encode
the result. The decode step lives in the external `Group` implementation and
the caller, not in `src/oprf.rs`; the spec's §4.2 makes it part of Evaluate's
public contract. -/
def evaluate {E S R : Type} (G : OprfGroup E S R) (alpha_wire : List Nat) (oprf_key : S) :
    Except InternalPakeError (List Nat) :=
  match G.from_element_slice alpha_wire with
  | none => Except.error InternalPakeError.InvalidPointError
  | some alpha =>
    match generate_oprf2 G alpha oprf_key with
    | Except.error e => Except.error e
    | Except.ok beta => Except.ok (G.to_arr beta)

/-- The reference PRF of the spec's round-trip property (and of the `prf`
helper in the tests of `oprf.rs`): hash the input to the group exactly the way
`generate_oprf1` does, multiply by the key with no blinding, and apply the
same finalize hash as `generate_oprf3`. -/
def directPRF {E S R : Type} (G : OprfGroup E S R)
    (hkdfD : Option (List Nat) → List Nat → List Nat)
    (input : List Nat) (pepper : Option (List Nat)) (oprf_key : S) : Option (List Nat) :=
  match genericArrayFromSlice G.UniformBytesLen (hkdfD pepper input) with
  | none => none
  | some bytes =>
      some (hkdfExtractSha256 none
        (G.to_arr (G.smul (G.hash_to_curve bytes) oprf_key) ++ input))

/-- The full three-step pipeline run by one client/server interaction:
blind, evaluate on the resulting `alpha`, finalize on the resulting `beta`
with the blinding factor from the same blind invocation. -/
def oprfPipeline {E S R : Type} (G : OprfGroup E S R)
    (hkdfD : Option (List Nat) → List Nat → List Nat)
    (input : List Nat) (pepper : Option (List Nat)) (oprf_key : S) (rng : R) :
    Option (Except InternalPakeError (List Nat)) :=
  match generate_oprf1 G hkdfD input pepper rng with
  | none => none
  | some (Except.error e) => some (Except.error e)
  | some (Except.ok (cb, _)) =>
    match generate_oprf2 G cb.alpha oprf_key with
    | Except.error e => some (Except.error e)
    | Except.ok beta => some (generate_oprf3 G input beta cb.blinding_factor)

/-! ## Concrete instance used by the witnesses

The additive group of `ZMod 7` with scalar field `ZMod 7`: scalar
multiplication is ring multiplication, scalar inversion is the Fermat power
`s ^ 5` (as curve25519-dalek computes inverses, so `scalar_invert 0 = 0`), the
canonical element encoding is the single byte of the representative, and the
RNG state is a scalar that `random_scalar` returns and steps. -/

def cGroup : OprfGroup (ZMod 7) (ZMod 7) (ZMod 7) where
  smul p s := p * s
  mulS a b := a * b
  oneS := 1
  scalar_invert s := s ^ (5 : Nat)
  random_scalar r := (r, r + 1)
  hash_to_curve l := ((l.foldl (fun a b => a + b) 0 : Nat) : ZMod 7)
  to_arr e := [e.val]
  from_element_slice l :=
    match l with
    | [v] => if v < 7 then some ((v : Nat) : ZMod 7) else none
    | _ => none
  UniformBytesLen := 32

/-! ## Helper lemmas (shared) -/

/-- The modelled SHA-256 HKDF-extract always produces exactly 32 bytes. -/
theorem hkdfExtractSha256_length (salt : Option (List Nat)) (ikm : List Nat) :
    (hkdfExtractSha256 salt ikm).length = 32 := by
  simp [hkdfExtractSha256]

/-- Unfolding of `generate_oprf1` when the HKDF output has the length
`hash_to_curve` expects (shared helper). -/
theorem generate_oprf1_eq {E S R : Type} (G : OprfGroup E S R)
    (hkdfD : Option (List Nat) → List Nat → List Nat)
    (hlen : ∀ pepper input, (hkdfD pepper input).length = G.UniformBytesLen)
    (input : List Nat) (pepper : Option (List Nat)) (rng : R) :
    generate_oprf1 G hkdfD input pepper rng =
      some (Except.ok
        ({ alpha := G.smul (G.hash_to_curve (hkdfD pepper input)) (G.random_scalar rng).1,
           blinding_factor := (G.random_scalar rng).1 }, (G.random_scalar rng).2)) := by
  unfold generate_oprf1 genericArrayFromSlice
  simp only [hlen pepper input, eq_self_iff_true, if_true]

/-- Unfolding of `directPRF` when the HKDF output has the expected length
(shared helper). -/
theorem directPRF_eq {E S R : Type} (G : OprfGroup E S R)
    (hkdfD : Option (List Nat) → List Nat → List Nat)
    (hlen : ∀ pepper input, (hkdfD pepper input).length = G.UniformBytesLen)
    (input : List Nat) (pepper : Option (List Nat)) (oprf_key : S) :
    directPRF G hkdfD input pepper oprf_key =
      some (hkdfExtractSha256 none
        (G.to_arr (G.smul (G.hash_to_curve (hkdfD pepper input)) oprf_key) ++ input)) := by
  unfold directPRF genericArrayFromSlice
  simp only [hlen pepper input, eq_self_iff_true, if_true]

/-- The core unblinding identity: for a lawful group and an invertible
blinding factor, `((p × r) × k) × r⁻¹ = p × k` (shared helper). -/
theorem OprfGroup.unblind_eq {E S R : Type} (G : OprfGroup E S R) (hL : G.Lawful)
    (p : E) (k r : S) (hr : G.Invertible r) :
    G.smul (G.smul (G.smul p r) k) (G.scalar_invert r) = G.smul p k := by
  obtain ⟨hss, hcomm, hassoc, hone⟩ := hL
  rw [hss, hss, ← hassoc, hcomm r k, hassoc, hr, ← hss, hone]

/-- The full correctness of one pipeline run against `directPRF` (shared
helper from which the round-trip and independence claims both follow). -/
theorem pipeline_eq_directPRF {E S R : Type} (G : OprfGroup E S R) (hL : G.Lawful)
    (hkdfD : Option (List Nat) → List Nat → List Nat)
    (hlen : ∀ pepper input, (hkdfD pepper input).length = G.UniformBytesLen)
    (input : List Nat) (pepper : Option (List Nat)) (oprf_key : S) (rng : R)
    (hr : G.Invertible (G.random_scalar rng).1) :
    ∃ (alpha : E) (r : S) (rng' : R) (beta : E) (out : List Nat),
      generate_oprf1 G hkdfD input pepper rng =
        some (Except.ok ({ alpha := alpha, blinding_factor := r }, rng')) ∧
      generate_oprf2 G alpha oprf_key = Except.ok beta ∧
      generate_oprf3 G input beta r = Except.ok out ∧
      directPRF G hkdfD input pepper oprf_key = some out := by
  refine ⟨_, _, _, _, _, generate_oprf1_eq G hkdfD hlen input pepper rng, rfl, rfl, ?_⟩
  rw [directPRF_eq G hkdfD hlen input pepper oprf_key]
  rw [OprfGroup.unblind_eq G hL (G.hash_to_curve (hkdfD pepper input)) oprf_key
    (G.random_scalar rng).1 hr]

/-! ## Claim theorems -/

/-- Claim C1: for every input, every valid key, and every valid (invertible)
blinding factor (the one drawn from the supplied RNG state), composing blind
(`generate_oprf1`), evaluate (`generate_oprf2`) and finalize
(`generate_oprf3`) yields exactly the output of the unblinded reference
`directPRF`; the result is independent of the blinding factor, since
`directPRF` does not mention it. -/
theorem oprf_round_trip {E S R : Type} (G : OprfGroup E S R) (hL : G.Lawful)
    (hkdfD : Option (List Nat) → List Nat → List Nat)
    (hlen : ∀ pepper input, (hkdfD pepper input).length = G.UniformBytesLen)
    (input : List Nat) (pepper : Option (List Nat)) (oprf_key : S) (rng : R)
    (hr : G.Invertible (G.random_scalar rng).1) :
    ∃ (alpha : E) (r : S) (rng' : R) (beta : E) (out : List Nat),
      generate_oprf1 G hkdfD input pepper rng =
        some (Except.ok ({ alpha := alpha, blinding_factor := r }, rng')) ∧
      generate_oprf2 G alpha oprf_key = Except.ok beta ∧
      generate_oprf3 G input beta r = Except.ok out ∧
      directPRF G hkdfD input pepper oprf_key = some out :=
  pipeline_eq_directPRF G hL hkdfD hlen input pepper oprf_key rng hr

/-- Witness for C1 at the concrete instance: input `[104, 105]`, no pepper,
key 3, RNG state 2 (so blinding factor 2, which is invertible mod 7). -/
theorem oprf_round_trip_witness :
    cGroup.Lawful ∧ cGroup.Invertible (cGroup.random_scalar 2).1 ∧
    (∃ (alpha : ZMod 7) (r : ZMod 7) (rng' : ZMod 7) (beta : ZMod 7) (out : List Nat),
      generate_oprf1 cGroup hkdfExtractSha256 [104, 105] none 2 =
        some (Except.ok ({ alpha := alpha, blinding_factor := r }, rng')) ∧
      generate_oprf2 cGroup alpha 3 = Except.ok beta ∧
      generate_oprf3 cGroup [104, 105] beta r = Except.ok out ∧
      directPRF cGroup hkdfExtractSha256 [104, 105] none 3 = some out) :=
  ⟨by decide, by decide, oprf_round_trip cGroup (by decide) hkdfExtractSha256
    (fun p i => hkdfExtractSha256_length p i) [104, 105] none 3 2 (by decide)⟩

/-- Claim C2: `evaluate` on a byte string that does not decode to a valid
group element returns `InvalidPointError`, never a computed beta. -/
theorem evaluate_rejects_invalid_point {E S R : Type} (G : OprfGroup E S R)
    (alpha_wire : List Nat) (oprf_key : S)
    (h : G.from_element_slice alpha_wire = none) :
    evaluate G alpha_wire oprf_key = Except.error InternalPakeError.InvalidPointError := by
  unfold evaluate
  rw [h]

/-- Witness for C2: `[9]` is no canonical encoding of a `ZMod 7` element. -/
theorem evaluate_rejects_invalid_point_witness :
    cGroup.from_element_slice [9] = none ∧
    evaluate cGroup [9] 3 = Except.error InternalPakeError.InvalidPointError :=
  ⟨by decide, evaluate_rejects_invalid_point cGroup [9] 3 (by decide)⟩

/-- Counterexample to C3 as stated: at the concrete instance, with the zero
(non-invertible) blinding factor, `generate_oprf3` does not return
`InvalidScalarError`; it returns a computed `Ok` output (the source's body
unconditionally builds `Ok`, with no invertibility check). -/
theorem generate_oprf3_zero_factor_counterexample :
    generate_oprf3 cGroup [104] (3 : ZMod 7) (0 : ZMod 7) ≠
      Except.error InternalPakeError.InvalidScalarError ∧
    ∃ out, generate_oprf3 cGroup [104] (3 : ZMod 7) (0 : ZMod 7) = Except.ok out :=
  ⟨fun h => Except.noConfusion h, ⟨_, rfl⟩⟩

/-- Claim C3 (amended): `generate_oprf3` performs no invertibility check and
never returns an error: for every input, evaluated point and blinding factor
(the zero scalar included), it returns `Ok` with the output computed from
`scalar_invert` of the factor. -/
theorem generate_oprf3_never_errors {E S R : Type} (G : OprfGroup E S R)
    (input : List Nat) (point : E) (blinding_factor : S) :
    ∃ out, generate_oprf3 G input point blinding_factor = Except.ok out :=
  ⟨_, rfl⟩

/-- Claim C4: for a fixed input and key, the final pipeline output is
identical across two different valid blinding factors (drawn from two RNG
states), even though the intermediate values may differ. -/
theorem oprf_blinding_factor_independence {E S R : Type} (G : OprfGroup E S R) (hL : G.Lawful)
    (hkdfD : Option (List Nat) → List Nat → List Nat)
    (hlen : ∀ pepper input, (hkdfD pepper input).length = G.UniformBytesLen)
    (input : List Nat) (pepper : Option (List Nat)) (oprf_key : S) (rng1 rng2 : R)
    (hr1 : G.Invertible (G.random_scalar rng1).1)
    (hr2 : G.Invertible (G.random_scalar rng2).1)
    (hne : (G.random_scalar rng1).1 ≠ (G.random_scalar rng2).1) :
    ∃ (a1 a2 : E) (r1 r2 : S) (s1 s2 : R) (b1 b2 : E) (out : List Nat),
      generate_oprf1 G hkdfD input pepper rng1 =
        some (Except.ok ({ alpha := a1, blinding_factor := r1 }, s1)) ∧
      generate_oprf1 G hkdfD input pepper rng2 =
        some (Except.ok ({ alpha := a2, blinding_factor := r2 }, s2)) ∧
      r1 ≠ r2 ∧
      generate_oprf2 G a1 oprf_key = Except.ok b1 ∧
      generate_oprf2 G a2 oprf_key = Except.ok b2 ∧
      generate_oprf3 G input b1 r1 = Except.ok out ∧
      generate_oprf3 G input b2 r2 = Except.ok out := by
  refine ⟨_, _, _, _, _, _, _, _, _,
    generate_oprf1_eq G hkdfD hlen input pepper rng1,
    generate_oprf1_eq G hkdfD hlen input pepper rng2,
    hne, rfl, rfl, rfl, ?_⟩
  unfold generate_oprf3
  rw [OprfGroup.unblind_eq G hL (G.hash_to_curve (hkdfD pepper input)) oprf_key
    (G.random_scalar rng2).1 hr2,
    OprfGroup.unblind_eq G hL (G.hash_to_curve (hkdfD pepper input)) oprf_key
    (G.random_scalar rng1).1 hr1]

/-- Witness for C4 at the concrete instance: RNG states 2 and 3 draw the
distinct invertible blinding factors 2 and 3. -/
theorem oprf_blinding_factor_independence_witness :
    cGroup.Lawful ∧ cGroup.Invertible (cGroup.random_scalar 2).1 ∧
    cGroup.Invertible (cGroup.random_scalar 3).1 ∧
    (cGroup.random_scalar 2).1 ≠ (cGroup.random_scalar 3).1 ∧
    (∃ (a1 a2 : ZMod 7) (r1 r2 : ZMod 7) (s1 s2 : ZMod 7) (b1 b2 : ZMod 7) (out : List Nat),
      generate_oprf1 cGroup hkdfExtractSha256 [104, 105] none 2 =
        some (Except.ok ({ alpha := a1, blinding_factor := r1 }, s1)) ∧
      generate_oprf1 cGroup hkdfExtractSha256 [104, 105] none 3 =
        some (Except.ok ({ alpha := a2, blinding_factor := r2 }, s2)) ∧
      r1 ≠ r2 ∧
      generate_oprf2 cGroup a1 5 = Except.ok b1 ∧
      generate_oprf2 cGroup a2 5 = Except.ok b2 ∧
      generate_oprf3 cGroup [104, 105] b1 r1 = Except.ok out ∧
      generate_oprf3 cGroup [104, 105] b2 r2 = Except.ok out) :=
  ⟨by decide, by decide, by decide, by decide,
    oprf_blinding_factor_independence cGroup (by decide) hkdfExtractSha256
      (fun p i => hkdfExtractSha256_length p i) [104, 105] none 5 2 3
      (by decide) (by decide) (by decide)⟩

/-- Claim C5: each step and the composed pipeline are deterministic: two
invocations with identical input, pepper, key and RNG state (the RNG draw
held fixed) produce identical results. -/
theorem oprf_deterministic {E S R : Type} (G : OprfGroup E S R)
    (hkdfD : Option (List Nat) → List Nat → List Nat)
    (m1 m2 : List Nat) (p1 p2 : Option (List Nat)) (k1 k2 : S) (rng1 rng2 : R)
    (hm : m1 = m2) (hp : p1 = p2) (hk : k1 = k2) (hrng : rng1 = rng2) :
    generate_oprf1 G hkdfD m1 p1 rng1 = generate_oprf1 G hkdfD m2 p2 rng2 ∧
    (∀ q : E, generate_oprf2 G q k1 = generate_oprf2 G q k2) ∧
    (∀ (q : E) (r : S), generate_oprf3 G m1 q r = generate_oprf3 G m2 q r) ∧
    oprfPipeline G hkdfD m1 p1 k1 rng1 = oprfPipeline G hkdfD m2 p2 k2 rng2 := by
  subst hm hp hk hrng
  exact ⟨rfl, fun _ => rfl, fun _ _ => rfl, rfl⟩

/-- Witness for C5 at the concrete instance with identical arguments. -/
theorem oprf_deterministic_witness :
    generate_oprf1 cGroup hkdfExtractSha256 [104] none 2 =
      generate_oprf1 cGroup hkdfExtractSha256 [104] none 2 ∧
    (∀ q : ZMod 7, generate_oprf2 cGroup q 3 = generate_oprf2 cGroup q 3) ∧
    (∀ (q : ZMod 7) (r : ZMod 7),
      generate_oprf3 cGroup [104] q r = generate_oprf3 cGroup [104] q r) ∧
    oprfPipeline cGroup hkdfExtractSha256 [104] none 3 2 =
      oprfPipeline cGroup hkdfExtractSha256 [104] none 3 2 :=
  oprf_deterministic cGroup hkdfExtractSha256 [104] [104] none none 3 3 2 2 rfl rfl rfl rfl

/-- Claim C6: `generate_oprf1` computes exactly the specified algorithm:
HKDF-extract with the pepper as salt and the input as keying material, map the
extracted bytes into the group via `hash_to_curve`, sample the blinding factor
from the supplied RNG, and return `alpha` = base point × blinding factor
together with the blinding factor itself. -/
theorem generate_oprf1_spec {E S R : Type} (G : OprfGroup E S R)
    (hkdfD : Option (List Nat) → List Nat → List Nat)
    (hlen : ∀ pepper input, (hkdfD pepper input).length = G.UniformBytesLen)
    (input : List Nat) (pepper : Option (List Nat)) (rng : R) :
    generate_oprf1 G hkdfD input pepper rng =
      some (Except.ok
        ({ alpha := G.smul (G.hash_to_curve (hkdfD pepper input)) (G.random_scalar rng).1,
           blinding_factor := (G.random_scalar rng).1 }, (G.random_scalar rng).2)) :=
  generate_oprf1_eq G hkdfD hlen input pepper rng

/-- Witness for C6 at the concrete instance: input `[104]`, pepper `[1, 2]`,
RNG state 2 (blinding factor 2, next state 3). -/
theorem generate_oprf1_spec_witness :
    generate_oprf1 cGroup hkdfExtractSha256 [104] (some [1, 2]) 2 =
      some (Except.ok
        ({ alpha := cGroup.smul (cGroup.hash_to_curve (hkdfExtractSha256 (some [1, 2]) [104])) 2,
           blinding_factor := (2 : ZMod 7) }, (3 : ZMod 7))) :=
  generate_oprf1_spec cGroup hkdfExtractSha256
    (fun p i => hkdfExtractSha256_length p i) [104] (some [1, 2]) 2

/-- Claim C7: for every input, point and invertible blinding factor,
`generate_oprf3` returns the fixed unsalted SHA-256 HKDF-extract of the
canonical encoding of the unblinded point (the point times the inverse of the
factor) concatenated with the raw input bytes. -/
theorem generate_oprf3_spec {E S R : Type} (G : OprfGroup E S R)
    (input : List Nat) (point : E) (blinding_factor : S)
    (hr : G.Invertible blinding_factor) :
    generate_oprf3 G input point blinding_factor =
      Except.ok (hkdfExtractSha256 none
        (G.to_arr (G.smul point (G.scalar_invert blinding_factor)) ++ input)) :=
  rfl

/-- Witness for C7 at the concrete instance: point 5, blinding factor 2. -/
theorem generate_oprf3_spec_witness :
    cGroup.Invertible (2 : ZMod 7) ∧
    generate_oprf3 cGroup [104] (5 : ZMod 7) (2 : ZMod 7) =
      Except.ok (hkdfExtractSha256 none
        (cGroup.to_arr (cGroup.smul (5 : ZMod 7) (cGroup.scalar_invert 2)) ++ [104])) :=
  ⟨by decide, generate_oprf3_spec cGroup [104] 5 2 (by decide)⟩

/-- Claim C8: for every group element `alpha` and every key scalar,
`generate_oprf2` succeeds and returns `alpha × oprf_key`. -/
theorem generate_oprf2_spec {E S R : Type} (G : OprfGroup E S R) (alpha : E) (oprf_key : S) :
    generate_oprf2 G alpha oprf_key = Except.ok (G.smul alpha oprf_key) :=
  rfl

/-- Claim C9: every successful invocation of `generate_oprf3` returns exactly
32 bytes, for every group (the output comes from the fixed-output-size
SHA-256 HKDF-extract, not from the group's lengths). -/
theorem generate_oprf3_output_length {E S R : Type} (G : OprfGroup E S R)
    (input : List Nat) (point : E) (blinding_factor : S) (out : List Nat)
    (h : generate_oprf3 G input point blinding_factor = Except.ok out) :
    out.length = 32 := by
  have h2 : Except.ok (hkdfExtractSha256 none
      (G.to_arr (G.smul point (G.scalar_invert blinding_factor)) ++ input)) =
      (Except.ok out : Except InternalPakeError (List Nat)) := h
  rw [← Except.ok.inj h2]
  exact hkdfExtractSha256_length _ _

/-- Witness for C9 at the concrete instance. -/
theorem generate_oprf3_output_length_witness :
    (hkdfExtractSha256 none
      (cGroup.to_arr (cGroup.smul (3 : ZMod 7) (cGroup.scalar_invert 2)) ++ [104])).length = 32 :=
  generate_oprf3_output_length cGroup [104] 3 2 _ rfl

/-- Claim C10: when the HKDF output length equals the group's
`UniformBytesLen` (what the Rust trait bound `G: Group<UniformBytesLen =
D::OutputSize>` enforces at compile time), `generate_oprf1` never hits the
panic branch of the slice-to-fixed-array conversion and returns `Ok` for
every input, pepper and RNG state. -/
theorem generate_oprf1_total {E S R : Type} (G : OprfGroup E S R)
    (hkdfD : Option (List Nat) → List Nat → List Nat)
    (hlen : ∀ pepper input, (hkdfD pepper input).length = G.UniformBytesLen)
    (input : List Nat) (pepper : Option (List Nat)) (rng : R) :
    ∃ (cb : OprfClientBytes E S) (rng' : R),
      generate_oprf1 G hkdfD input pepper rng = some (Except.ok (cb, rng')) :=
  ⟨_, _, generate_oprf1_eq G hkdfD hlen input pepper rng⟩

/-- Witness for C10 at the concrete instance (whose `UniformBytesLen` is 32,
the modelled hash's output size). -/
theorem generate_oprf1_total_witness :
    ∃ (cb : OprfClientBytes (ZMod 7) (ZMod 7)) (rng' : ZMod 7),
      generate_oprf1 cGroup hkdfExtractSha256 [104, 105] none 2 =
        some (Except.ok (cb, rng')) :=
  generate_oprf1_total cGroup hkdfExtractSha256
    (fun p i => hkdfExtractSha256_length p i) [104, 105] none 2

end Oprf
